import Mathlib

/-!
Shallow embedding of `src/wiki.go` (package main of radeknovis/gowiki).

The wiki stores pages in a single MongoDB collection with document schema
`{title: string, body: bytes}`.  We model the collection as a list of
`Page` documents, in storage order.  Go's `[]byte` page body is produced
from and compared against strings only, so bodies are modelled as `String`.

The mongo driver operations used by the code are modelled faithfully to
the driver's semantics with *default options*:
  * `ReplaceOne(filter, doc)` with no options replaces the first document
    matching the filter and inserts nothing when none matches
    (`Upsert` defaults to false);
  * `DeleteOne(filter)` removes the first matching document;
  * `FindOne(filter)` returns the first matching document or
    `ErrNoDocuments`;
  * `Find({})` iterates all documents.
A storage-level failure (dead connection, server error) makes every
driver call return an error; we model this as an optional error message
`fail` carried by the database state.
-/

/-- `Page` from wiki.go: a single wiki page / stored document. -/
structure Page where
  Title : String
  Body  : String
deriving DecidableEq

/-- The `Pages` collection: documents in storage order. -/
abbrev Store := List Page

/-- The database handle: the collection contents plus the storage-failure
mode (`some msg` when every driver operation fails with error `msg`). -/
structure DB where
  store : Store
  fail  : Option String
deriving DecidableEq

/-- Driver `FindOne` with a `{title: t}` filter: first matching document. -/
def findOne (s : Store) (t : String) : Option Page :=
  match s with
  | [] => none
  | p :: rest => if p.Title = t then some p else findOne rest t

/-- Driver `ReplaceOne` with a `{title: t}` filter and default options:
replaces the first matching document with `r`; when no document matches,
the collection is unchanged (no upsert). -/
def replaceOne (s : Store) (t : String) (r : Page) : Store :=
  match s with
  | [] => []
  | p :: rest => if p.Title = t then r :: rest else p :: replaceOne rest t r

/-- Driver `DeleteOne` with a `{title: t}` filter: removes the first
matching document; unchanged when none matches. -/
def deleteOne (s : Store) (t : String) : Store :=
  match s with
  | [] => []
  | p :: rest => if p.Title = t then rest else p :: deleteOne rest t

/-- `Page.save` from wiki.go: `ReplaceOne` on the `{title: p.Title}` filter
with replacement document `{title: p.Title, body: p.Body}` (the page
itself); returns the driver error on storage failure, otherwise the
updated database. -/
def Page.save (p : Page) (db : DB) : Except String DB :=
  match db.fail with
  | some e => .error e
  | none => .ok { db with store := replaceOne db.store p.Title p }

/-- `deletePage` from wiki.go: `DeleteOne` on the `{title: title}` filter;
returns the driver error on storage failure. -/
def deletePage (title : String) (db : DB) : Except String DB :=
  match db.fail with
  | some e => .error e
  | none => .ok { db with store := deleteOne db.store title }

/-- `loadPage` from wiki.go: `FindOne` on the `{title: title}` filter.
Any driver error — `ErrNoDocuments` as well as a storage failure — is
collapsed into the single error `"Page not found"`. -/
def loadPage (title : String) (db : DB) : Except String Page :=
  match db.fail with
  | some _ => .error "Page not found"
  | none =>
    match findOne db.store title with
    | none => .error "Page not found"
    | some p => .ok p

/-- Result of `listPages` from wiki.go.  The Go function returns
`([]string, error)`, but on a driver failure (of `Find` or of decoding a
cursor entry) it calls `log.Fatal`, terminating the process without
returning; `fatal` models that.  In the returning case it carries the
collected titles and the returned `error` value. -/
inductive ListResult where
  | fatal
  | ok (names : List String) (err : Option String)
deriving DecidableEq

/-- `listPages` from wiki.go: `Find` over the whole collection, collecting
each document's title; `log.Fatal` on a driver failure; the returned
`error` value is always `nil`. -/
def listPages (db : DB) : ListResult :=
  match db.fail with
  | some _ => .fatal
  | none => .ok (db.store.map Page.Title) none

/-- An HTTP response as observed by the client, plus `fatalExit` for
`log.Fatal` (the process dies and no response is written).  Template
execution (`renderPageTemplate`, `templates.ExecuteTemplate`) is assumed
to succeed, so a render is modelled by the template name and its data. -/
inductive Response where
  | render (tmpl : String) (p : Page)
  | renderList (names : List String)
  | redirect (loc : String)
  | notFound
  | serverError (msg : String)
  | fatalExit
deriving DecidableEq

/-- `viewHandler` from wiki.go: load the page; on any load error redirect
to `/edit/<title>` (302), otherwise render the `view` template. -/
def viewHandler (db : DB) (title : String) : Response :=
  match loadPage title db with
  | .error _ => .redirect ("/edit/" ++ title)
  | .ok p => .render "view" p

/-- `editHandler` from wiki.go: load the page; on any load error render
the `edit` template with `&Page{Title: title}` (empty body), otherwise
render it with the loaded page. -/
def editHandler (db : DB) (title : String) : Response :=
  match loadPage title db with
  | .error _ => .render "edit" { Title := title, Body := "" }
  | .ok p => .render "edit" p

/-- Go `r.FormValue(key)`: the first value for `key` in the form data, or
the empty string when the key is absent. -/
def formValue (form : List (String × String)) (key : String) : String :=
  match form.lookup key with
  | some v => v
  | none => ""

/-- `saveHandler` from wiki.go: read the `body` form field, save
`&Page{Title: title, Body: []byte(body)}`; 500 with the raw error message
on storage failure, otherwise redirect to `/view/<title>` (302). -/
def saveHandler (db : DB) (title : String) (form : List (String × String)) :
    Response × DB :=
  let body := formValue form "body"
  let p : Page := { Title := title, Body := body }
  match p.save db with
  | .error e => (.serverError e, db)
  | .ok db' => (.redirect ("/view/" ++ title), db')

/-- `deleteHandler` from wiki.go: delete by title; 500 with the raw error
message on storage failure, otherwise redirect to `/list` (302). -/
def deleteHandler (db : DB) (title : String) : Response × DB :=
  match deletePage title db with
  | .error e => (.serverError e, db)
  | .ok db' => (.redirect "/list", db')

/-- `listHandler` from wiki.go: call `listPages`; if it returned a non-nil
error, redirect to `/list`; otherwise render the `list` template with the
titles.  (A `listPages` driver failure never reaches the handler: the
process has already died in `log.Fatal`.) -/
def listHandler (db : DB) : Response :=
  match listPages db with
  | .fatal => .fatalExit
  | .ok names err =>
    match err with
    | some _ => .redirect "/list"
    | none => .renderList names

/-- Strip a literal character sequence from the front of a list:
`some rest` when `s = pre ++ rest`, `none` otherwise. -/
def dropPre : List Char → List Char → Option (List Char)
  | [], s => some s
  | _ :: _, [] => none
  | c :: cs, d :: ds => if c = d then dropPre cs ds else none

/-- The `([a-zA-Z0-9]+)` capture group of `validPath`: nonempty and all
ASCII alphanumeric (`Char.isAlphanum` is exactly `[a-zA-Z0-9]`). -/
def titleOk (cs : List Char) : Bool :=
  !cs.isEmpty && cs.all Char.isAlphanum

/-- One alternative of the anchored regexp
`^/(edit|save|view|delete)/([a-zA-Z0-9]+)$`: match `/<verb>/<title>`
against the whole path, returning the title capture. -/
def matchOne (verb : String) (cs : List Char) : Option String :=
  match dropPre ('/' :: verb.data ++ ['/']) cs with
  | some rest => if titleOk rest then some (String.mk rest) else none
  | none => none

/-- `validPath.FindStringSubmatch` from wiki.go on the whole request path:
`some (verb, title)` when the path matches
`^/(edit|save|view|delete)/([a-zA-Z0-9]+)$`, `none` otherwise.  The four
alternatives are mutually exclusive, so alternation order is irrelevant. -/
def validPathMatch (path : String) : Option (String × String) :=
  match matchOne "edit" path.data with
  | some t => some ("edit", t)
  | none =>
    match matchOne "save" path.data with
    | some t => some ("save", t)
    | none =>
      match matchOne "view" path.data with
      | some t => some ("view", t)
      | none =>
        match matchOne "delete" path.data with
        | some t => some ("delete", t)
        | none => none

/-- `makeHandler` from wiki.go: validate the full path against
`validPath`; on mismatch answer 404 (`http.NotFound`) touching nothing,
otherwise invoke the wrapped handler with the captured title. -/
def makeHandler (fn : DB → String → Response × DB) (db : DB) (path : String) :
    Response × DB :=
  match validPathMatch path with
  | none => (Response.notFound, db)
  | some (_, title) => fn db title

/-- The server's routing as set up in `main`: `http.HandleFunc` registers
`makeHandler(viewHandler)` under the path subtree `/view/`, likewise
`/edit/`, `/delete/`, `/save/`, and `listHandler` under the exact path
`/list`; any path matching none of these patterns gets the mux's 404.
The subtree patterns are prefix matches and pairwise non-overlapping. -/
def serve (db : DB) (path : String) (form : List (String × String)) :
    Response × DB :=
  if path = "/list" then (listHandler db, db)
  else if (dropPre "/view/".data path.data).isSome then
    makeHandler (fun d t => (viewHandler d t, d)) db path
  else if (dropPre "/edit/".data path.data).isSome then
    makeHandler (fun d t => (editHandler d t, d)) db path
  else if (dropPre "/delete/".data path.data).isSome then
    makeHandler (fun d t => deleteHandler d t) db path
  else if (dropPre "/save/".data path.data).isSome then
    makeHandler (fun d t => saveHandler d t form) db path
  else (Response.notFound, db)

example : validPathMatch "/view/Foo" = some ("view", "Foo") := by decide
example : validPathMatch "/view/a b" = none := by decide
example : validPathMatch "/view/a/b" = none := by decide
example : validPathMatch "/view/" = none := by decide
example : serve { store := [], fail := none } "/view/Foo" [] =
    (Response.redirect "/edit/Foo", { store := [], fail := none }) := by decide
example : serve { store := [⟨"Foo", "hi"⟩], fail := none } "/view/Foo" [] =
    (Response.render "view" ⟨"Foo", "hi"⟩, { store := [⟨"Foo", "hi"⟩], fail := none }) := by
  decide
example : serve { store := [], fail := none } "/list" [] =
    (Response.renderList [], { store := [], fail := none }) := by decide
example : serve { store := [], fail := none } "/save/Foo" [("body", "hi")] =
    (Response.redirect "/view/Foo", { store := [], fail := none }) := by decide

/-! ### Store-level lemmas -/

/-- Replacing on a title that some document matches puts exactly the
replacement document where `FindOne` on that title looks. -/
theorem findOne_replaceOne_self (s : Store) (t : String) (r : Page)
    (hr : r.Title = t) (q : Page) (hq : findOne s t = some q) :
    findOne (replaceOne s t r) t = some r := by
  induction s with
  | nil => simp [findOne] at hq
  | cons p rest ih =>
    by_cases hp : p.Title = t
    · simp [findOne, replaceOne, hp, hr]
    · simp only [findOne, replaceOne, if_neg hp] at hq ⊢
      exact ih hq

/-- A title absent from the stored titles is not found. -/
theorem findOne_eq_none_of_not_mem (s : Store) (t : String)
    (h : t ∉ s.map Page.Title) : findOne s t = none := by
  induction s with
  | nil => rfl
  | cons p rest ih =>
    simp only [List.map_cons, List.mem_cons] at h
    push_neg at h
    have hne : ¬ p.Title = t := fun hp => h.1 hp.symm
    simp only [findOne, if_neg hne]
    exact ih h.2

/-- When stored titles are pairwise distinct (the spec's "one document per
title" data-model invariant), deleting the first match for a title leaves
no document with that title behind. -/
theorem findOne_deleteOne (s : Store) (t : String)
    (h : (s.map Page.Title).Nodup) : findOne (deleteOne s t) t = none := by
  induction s with
  | nil => rfl
  | cons p rest ih =>
    simp only [List.map_cons, List.nodup_cons] at h
    by_cases hp : p.Title = t
    · simp only [deleteOne, if_pos hp]
      exact findOne_eq_none_of_not_mem rest t (hp ▸ h.1)
    · simp only [deleteOne, findOne, if_neg hp]
      exact ih h.2

/-! ### Claims -/

/-- C1: the spec claims `save` has upsert semantics — "creates if absent,
overwrites if present".  In the code, `ReplaceOne` is called without the
upsert option, so it inserts nothing when no document matches: saving
title `"Foo"` with body `"hello"` into an empty store succeeds (returns
no error), yet the store is unchanged and no document with that title is
present afterwards.  This refutes the "creates if absent" half. -/
theorem save_absent_title_stores_nothing :
    Page.save { Title := "Foo", Body := "hello" } { store := [], fail := none } =
      Except.ok { store := [], fail := none } ∧
    findOne ([] : Store) "Foo" = none :=
  ⟨rfl, rfl⟩

/-- C2: the claimed save/load round-trip fails on a title not already in
the store: saving `("Foo", "hello")` into an empty store succeeds without
changing it (`ReplaceOne` without upsert inserts nothing), so the
subsequent load returns the not-found error instead of the saved body. -/
theorem save_then_load_fails_on_fresh_title :
    Page.save { Title := "Foo", Body := "hello" } { store := [], fail := none } =
      Except.ok { store := [], fail := none } ∧
    loadPage "Foo" { store := [], fail := none } = Except.error "Page not found" :=
  ⟨rfl, rfl⟩

/-- C3: when some document with the given title is already stored, a
successful save replaces the whole document: the document found under
that title afterwards is exactly `{title, body}`, with nothing of the
previous document merged in. -/
theorem save_existing_replaces_whole_document (db : DB) (title body : String)
    (hf : db.fail = none) (q : Page) (hq : findOne db.store title = some q) :
    ∃ db', Page.save { Title := title, Body := body } db = Except.ok db' ∧
      findOne db'.store title = some { Title := title, Body := body } := by
  refine ⟨{ db with store := replaceOne db.store title { Title := title, Body := body } }, ?_, ?_⟩
  · simp [Page.save, hf]
  · exact findOne_replaceOne_self db.store title _ rfl q hq

/-- Witness for C3 at a concrete store holding `("Foo", "old")`. -/
theorem save_existing_replaces_whole_document_witness :
    ∃ db', Page.save { Title := "Foo", Body := "new" }
        { store := [{ Title := "Foo", Body := "old" }], fail := none } = Except.ok db' ∧
      findOne db'.store "Foo" = some { Title := "Foo", Body := "new" } :=
  save_existing_replaces_whole_document
    { store := [{ Title := "Foo", Body := "old" }], fail := none } "Foo" "new" rfl
    { Title := "Foo", Body := "old" } (by decide)

/-- C4: with the data-model invariant that titles are unique in the store
(one document per title), a successful delete of a title makes a
subsequent load of that title return the not-found error (and no page). -/
theorem delete_then_load_not_found (db : DB) (title : String)
    (hf : db.fail = none) (hnd : (db.store.map Page.Title).Nodup) :
    ∃ db', deletePage title db = Except.ok db' ∧
      loadPage title db' = Except.error "Page not found" := by
  refine ⟨{ db with store := deleteOne db.store title }, ?_, ?_⟩
  · simp [deletePage, hf]
  · simp [loadPage, hf, findOne_deleteOne db.store title hnd]

/-- Witness for C4 at a concrete store holding `("Foo", "x")`. -/
theorem delete_then_load_not_found_witness :
    ∃ db', deletePage "Foo" { store := [{ Title := "Foo", Body := "x" }], fail := none } =
        Except.ok db' ∧
      loadPage "Foo" db' = Except.error "Page not found" :=
  delete_then_load_not_found
    { store := [{ Title := "Foo", Body := "x" }], fail := none } "Foo" rfl (by decide)

/-- C5: with storage healthy, viewing a title with no stored page does not
render the view template but redirects (302) to `/edit/<title>`; viewing a
title whose load succeeds renders the view template with the loaded page. -/
theorem view_redirects_absent_renders_present (db : DB) (title : String)
    (hf : db.fail = none) :
    (findOne db.store title = none →
      viewHandler db title = Response.redirect ("/edit/" ++ title)) ∧
    (∀ p, findOne db.store title = some p →
      viewHandler db title = Response.render "view" p) := by
  constructor
  · intro h
    simp [viewHandler, loadPage, hf, h]
  · intro p h
    simp [viewHandler, loadPage, hf, h]

/-- Witness for C5: empty store, title `"Foo"` redirects; a store holding
`("Foo", "hi")` renders the view template with that page. -/
theorem view_redirects_absent_renders_present_witness :
    viewHandler { store := [], fail := none } "Foo" =
      Response.redirect ("/edit/" ++ "Foo") ∧
    viewHandler { store := [{ Title := "Foo", Body := "hi" }], fail := none } "Foo" =
      Response.render "view" { Title := "Foo", Body := "hi" } :=
  ⟨(view_redirects_absent_renders_present { store := [], fail := none } "Foo" rfl).1 rfl,
   (view_redirects_absent_renders_present
      { store := [{ Title := "Foo", Body := "hi" }], fail := none } "Foo" rfl).2
      { Title := "Foo", Body := "hi" } (by decide)⟩

/-- C6: with storage healthy, editing a title with no stored page renders
the edit template with a page carrying that title and an empty body — a
blank new-page form, never an error response. -/
theorem edit_absent_renders_blank_form (db : DB) (title : String)
    (hf : db.fail = none) (h : findOne db.store title = none) :
    editHandler db title = Response.render "edit" { Title := title, Body := "" } := by
  simp [editHandler, loadPage, hf, h]

/-- Witness for C6 at the empty store and title `"Foo"`. -/
theorem edit_absent_renders_blank_form_witness :
    editHandler { store := [], fail := none } "Foo" =
      Response.render "edit" { Title := "Foo", Body := "" } :=
  edit_absent_renders_blank_form { store := [], fail := none } "Foo" rfl rfl

/-- The six characters of the `/view/` route pattern. -/
theorem viewPreData : "/view/".data = ['/', 'v', 'i', 'e', 'w', '/'] := rfl

/-- The six characters of the `/edit/` route pattern. -/
theorem editPreData : "/edit/".data = ['/', 'e', 'd', 'i', 't', '/'] := rfl

/-- The six characters of the `/save/` route pattern. -/
theorem savePreData : "/save/".data = ['/', 's', 'a', 'v', 'e', '/'] := rfl

/-- The eight characters of the `/delete/` route pattern. -/
theorem deletePreData : "/delete/".data = ['/', 'd', 'e', 'l', 'e', 't', 'e', '/'] := rfl

/-- The five characters of the `/list` route pattern. -/
theorem listData : "/list".data = ['/', 'l', 'i', 's', 't'] := rfl

/-- C7: a request under `/view/`, `/edit/`, `/save/` or `/delete/` whose
title part does not match `[a-zA-Z0-9]+` is answered 404 by the router
(`makeHandler`'s regexp check), the wrapped handler is never reached, and
the database is untouched. -/
theorem invalid_title_not_found_no_storage_op (db : DB)
    (form : List (String × String)) (verb title : String)
    (hv : verb = "view" ∨ verb = "edit" ∨ verb = "save" ∨ verb = "delete")
    (ht : titleOk title.data = false) :
    serve db ("/" ++ verb ++ "/" ++ title) form = (Response.notFound, db) := by
  obtain ⟨t⟩ := title
  have ht' : titleOk t = false := ht
  rcases hv with rfl | rfl | rfl | rfl
  · show serve db (String.mk ('/' :: 'v' :: 'i' :: 'e' :: 'w' :: '/' :: t)) form =
      (Response.notFound, db)
    simp [serve, makeHandler, validPathMatch, matchOne, dropPre,
      String.ext_iff, viewPreData, editPreData, savePreData, deletePreData, listData, ht']
  · show serve db (String.mk ('/' :: 'e' :: 'd' :: 'i' :: 't' :: '/' :: t)) form =
      (Response.notFound, db)
    simp [serve, makeHandler, validPathMatch, matchOne, dropPre,
      String.ext_iff, viewPreData, editPreData, savePreData, deletePreData, listData, ht']
  · show serve db (String.mk ('/' :: 's' :: 'a' :: 'v' :: 'e' :: '/' :: t)) form =
      (Response.notFound, db)
    simp [serve, makeHandler, validPathMatch, matchOne, dropPre,
      String.ext_iff, viewPreData, editPreData, savePreData, deletePreData, listData, ht']
  · show serve db (String.mk ('/' :: 'd' :: 'e' :: 'l' :: 'e' :: 't' :: 'e' :: '/' :: t)) form =
      (Response.notFound, db)
    simp [serve, makeHandler, validPathMatch, matchOne, dropPre,
      String.ext_iff, viewPreData, editPreData, savePreData, deletePreData, listData, ht']

/-- Witness for C7: `/view/a b` (title containing a space) gets 404 with
the store untouched. -/
theorem invalid_title_not_found_no_storage_op_witness :
    titleOk ("a b" : String).data = false ∧
    serve { store := [], fail := none } ("/" ++ "view" ++ "/" ++ "a b") [] =
      (Response.notFound, { store := [], fail := none }) :=
  ⟨by decide,
   invalid_title_not_found_no_storage_op { store := [], fail := none } [] "view" "a b"
     (Or.inl rfl) (by decide)⟩

/-- C8 counterexample: with storage failing (error `"boom"`), a view
request does not answer 500 with the storage error: `loadPage` collapses
every driver error into its not-found error, so the view handler
redirects to the edit page instead. -/
theorem view_storage_failure_not_500 :
    viewHandler { store := [], fail := some "boom" } "Foo" =
      Response.redirect ("/edit/" ++ "Foo") ∧
    viewHandler { store := [], fail := some "boom" } "Foo" ≠
      Response.serverError "boom" :=
  ⟨rfl, by decide⟩

/-- C8 amended: on storage failure, only the save and delete handlers
answer 500 with the raw error message; the view handler redirects to the
edit path and the edit handler renders the blank form (their `loadPage`
collapses storage errors into not-found), and the list handler never
responds at all — `listPages` terminates the process via `log.Fatal`. -/
theorem storage_failure_responses (db : DB) (title : String)
    (form : List (String × String)) (e : String) (hf : db.fail = some e) :
    saveHandler db title form = (Response.serverError e, db) ∧
    deleteHandler db title = (Response.serverError e, db) ∧
    viewHandler db title = Response.redirect ("/edit/" ++ title) ∧
    editHandler db title = Response.render "edit" { Title := title, Body := "" } ∧
    listHandler db = Response.fatalExit := by
  refine ⟨?_, ?_, ?_, ?_, ?_⟩ <;>
    simp [saveHandler, deleteHandler, viewHandler, editHandler, listHandler,
      Page.save, deletePage, loadPage, listPages, hf]

/-- Witness for the amended C8 at a concrete failing database. -/
theorem storage_failure_responses_witness :
    saveHandler { store := [], fail := some "boom" } "Foo" [] =
      (Response.serverError "boom", { store := [], fail := some "boom" }) ∧
    deleteHandler { store := [], fail := some "boom" } "Foo" =
      (Response.serverError "boom", { store := [], fail := some "boom" }) ∧
    viewHandler { store := [], fail := some "boom" } "Foo" =
      Response.redirect ("/edit/" ++ "Foo") ∧
    editHandler { store := [], fail := some "boom" } "Foo" =
      Response.render "edit" { Title := "Foo", Body := "" } ∧
    listHandler { store := [], fail := some "boom" } = Response.fatalExit :=
  storage_failure_responses { store := [], fail := some "boom" } "Foo" [] "boom" rfl

/-- C9 counterexample: when fetching the titles fails, the list handler
does not respond with a redirect back to `/list`: `listPages` calls
`log.Fatal`, terminating the process with no response written. -/
theorem list_storage_failure_is_fatal :
    listHandler { store := [], fail := some "boom" } = Response.fatalExit ∧
    listHandler { store := [], fail := some "boom" } ≠ Response.redirect "/list" :=
  ⟨rfl, by decide⟩

/-- C9 amended: `listPages` never returns a non-nil error (on a storage
failure it kills the process, so the handler's redirect-to-`/list` branch
is unreachable and no response is written); with healthy storage and no
pages it returns the empty title sequence, and the list template is
rendered with it. -/
theorem list_never_errors_empty_ok (db : DB) :
    (∀ names e, listPages db ≠ ListResult.ok names (some e)) ∧
    (db.fail = none → db.store = [] →
      listPages db = ListResult.ok [] none ∧
      listHandler db = Response.renderList []) ∧
    (∀ e, db.fail = some e → listHandler db = Response.fatalExit) := by
  refine ⟨?_, ?_, ?_⟩
  · intro names e h
    cases hf : db.fail <;> simp [listPages, hf] at h
  · intro hf hs
    simp [listPages, listHandler, hf, hs]
  · intro e hf
    simp [listHandler, listPages, hf]

/-- Witness for the amended C9 at the empty, healthy database. -/
theorem list_never_errors_empty_ok_witness :
    listPages { store := [], fail := none } = ListResult.ok [] none ∧
    listHandler { store := [], fail := none } = Response.renderList [] :=
  (list_never_errors_empty_ok { store := [], fail := none }).2.1 rfl rfl

/-- C10 counterexample: a save request for the fresh title `"Foo"` with no
`body` form field redirects to `/view/Foo` yet stores nothing — the store
is still empty afterwards, so no page with an empty body was stored. -/
theorem save_missing_body_fresh_title_no_store :
    saveHandler { store := [], fail := none } "Foo" [] =
      (Response.redirect ("/view/" ++ "Foo"), { store := [], fail := none }) ∧
    findOne (saveHandler { store := [], fail := none } "Foo" []).2.store "Foo" = none :=
  ⟨rfl, rfl⟩

/-- C10 amended: a save request with no `body` form field is not rejected:
the missing field reads as the empty string and the handler redirects to
`/view/<title>` on storage success; but the empty body is only stored
when a document with that title already exists, since save inserts
nothing for an absent title. -/
theorem save_missing_body_stores_empty (db : DB) (title : String)
    (form : List (String × String)) (hf : db.fail = none)
    (hb : form.lookup "body" = none)
    (q : Page) (hq : findOne db.store title = some q) :
    ∃ db', saveHandler db title form = (Response.redirect ("/view/" ++ title), db') ∧
      findOne db'.store title = some { Title := title, Body := "" } := by
  refine ⟨{ db with
    store := replaceOne db.store title { Title := title, Body := "" } }, ?_, ?_⟩
  · simp [saveHandler, formValue, hb, Page.save, hf]
  · exact findOne_replaceOne_self db.store title _ rfl q hq

/-- Witness for the amended C10 at a store holding `("Foo", "old")` and an
empty form. -/
theorem save_missing_body_stores_empty_witness :
    ∃ db', saveHandler { store := [{ Title := "Foo", Body := "old" }], fail := none }
        "Foo" [] = (Response.redirect ("/view/" ++ "Foo"), db') ∧
      findOne db'.store "Foo" = some { Title := "Foo", Body := "" } :=
  save_missing_body_stores_empty
    { store := [{ Title := "Foo", Body := "old" }], fail := none } "Foo" [] rfl rfl
    { Title := "Foo", Body := "old" } (by decide)
